import Mathlib

/-!
Verification development for the medical-bot retrieval-augmented QA backend.

The Python sources are shallowly embedded: Python strings become lists of
Unicode code points (`PyStr`), dictionaries relevant to the claims become
structures, remote calls (Pinecone, Google embeddings, the LLM chain) are
modelled as explicit outcome parameters of type `Except`, and the side
effects of interest (retrieval, generation, chunking, indexing) are
recorded in an explicit effect trace.
-/

namespace MedicalBot

/-- Python strings, embedded as lists of Unicode code points. -/
abbrev PyStr := List Nat

/-- Code points that Python's `str.strip()` removes (ASCII whitespace range
used by `str.isspace`, plus NEL and NBSP; the inputs appearing in this
development only ever use 10 and 32). -/
def isPyWhitespace (c : Nat) : Bool :=
  c = 9 || c = 10 || c = 11 || c = 12 || c = 13 ||
  c = 28 || c = 29 || c = 30 || c = 31 || c = 32 || c = 133

/-- Python `str.strip()`: drop whitespace from both ends. -/
def pyStrip (s : PyStr) : PyStr :=
  ((s.dropWhile isPyWhitespace).reverse.dropWhile isPyWhitespace).reverse

/-! ## The text splitter

Embedding of langchain's `RecursiveCharacterTextSplitter` as configured by
`DocumentProcessorService.__init__` (document_processor.py, lines 19-26):
separators `["\n\n", "\n", " ", ""]`, `length_function = len`, and the
splitter defaults `keep_separator = True`, `strip_whitespace = True`,
`is_separator_regex = False`.
-/

/-- Split `text` at each non-overlapping occurrence of the literal
separator `sep`, left to right (Python `re.split` on the escaped literal).
The separator occurrences themselves are dropped; `acc` is the piece
accumulated so far (reversed).  Recursion is driven by a fuel argument
instantiated with the text length, which a step can never exhaust because
every step consumes at least one character. -/
def splitOnFuel (sep : PyStr) : Nat → PyStr → PyStr → List PyStr
  | _, [], acc => [acc.reverse]
  | 0, _ :: _, acc => [acc.reverse]
  | fuel + 1, c :: rest, acc =>
    if sep ≠ [] ∧ sep.isPrefixOf (c :: rest) then
      acc.reverse :: splitOnFuel sep fuel (List.drop (sep.length - 1) rest) []
    else
      splitOnFuel sep fuel rest (c :: acc)

/-- Python `re.split(escaped sep, text)` for a literal separator. -/
def splitOnSep (sep text : PyStr) : List PyStr :=
  splitOnFuel sep text.length text []

/-- langchain `_split_text_with_regex` with `keep_separator=True`: the
separator occurrences are reattached to the front of the piece that
follows them, and empty pieces are dropped.  With the empty separator the
text is split into its individual characters (`list(text)`). -/
def splitTextWithSeparator (sep text : PyStr) : List PyStr :=
  if sep = [] then
    text.map (fun c => [c])
  else
    match splitOnSep sep text with
    | [] => []
    | t0 :: rest => (t0 :: rest.map (fun t => sep ++ t)).filter (fun t => t ≠ [])

/-- langchain `TextSplitter._join_docs` with `strip_whitespace=True`:
join the window with the separator, strip, and drop the result when it
is empty. -/
def joinDocs (sep : PyStr) (docs : List PyStr) : Option PyStr :=
  let text := pyStrip (List.intercalate sep docs)
  if text = [] then none else some text

/-- The window-shrinking loop inside langchain `TextSplitter._merge_splits`:
pop splits from the front of the current window while the running total
exceeds `chunkOverlap`, or while the incoming split of length `nlen` would
push the window past `chunkSize` and the window is non-empty. -/
def popLoop (chunkSize chunkOverlap sepLen nlen : Int) :
    List PyStr → Int → List PyStr × Int
  | [], total => ([], total)
  | d :: rest, total =>
    if total > chunkOverlap ∨ (total + nlen + sepLen > chunkSize ∧ total > 0) then
      popLoop chunkSize chunkOverlap sepLen nlen rest
        (total - ((d.length : Int) + if rest ≠ [] then sepLen else 0))
    else
      (d :: rest, total)

/-- langchain `TextSplitter._merge_splits`: greedily pack splits into
chunks of at most `chunkSize` characters, keeping an overlap window of
previous splits whose running total is at most `chunkOverlap`. -/
def mergeLoop (chunkSize chunkOverlap : Int) (sep : PyStr) :
    List PyStr → List PyStr → List PyStr → Int → List PyStr
  | [], docs, cur, _ => docs ++ (joinDocs sep cur).toList
  | d :: ds, docs, cur, total =>
    let len : Int := d.length
    let sLen : Int := sep.length
    if total + len + (if cur ≠ [] then sLen else 0) > chunkSize then
      if cur ≠ [] then
        let docs1 := docs ++ (joinDocs sep cur).toList
        let popped := popLoop chunkSize chunkOverlap sLen len cur total
        mergeLoop chunkSize chunkOverlap sep ds docs1 (popped.1 ++ [d])
          (popped.2 + len + (if popped.1 ≠ [] then sLen else 0))
      else
        mergeLoop chunkSize chunkOverlap sep ds docs [d] len
    else
      mergeLoop chunkSize chunkOverlap sep ds docs (cur ++ [d])
        (total + len + (if cur ≠ [] then sLen else 0))

def mergeSplits (chunkSize chunkOverlap : Int) (sep : PyStr)
    (splits : List PyStr) : List PyStr :=
  mergeLoop chunkSize chunkOverlap sep splits [] [] 0

/-- Python `re.search(escaped sep, text)` viewed as a Boolean: does the
literal separator occur somewhere in the text? -/
def occursIn (sep : PyStr) : PyStr → Bool
  | [] => sep.isPrefixOf []
  | c :: rest => sep.isPrefixOf (c :: rest) || occursIn sep rest

/-- The separator-selection loop at the top of langchain
`RecursiveCharacterTextSplitter._split_text`: pick the first separator in
the list that is empty or occurs in the text, together with the remaining
lower-priority separators; fall back to the last separator. -/
def chooseSeparator (dflt : PyStr) : List PyStr → PyStr → PyStr × List PyStr
  | [], _ => (dflt, [])
  | s :: rest, text =>
    if s = [] then ([], [])
    else if occursIn s text then (s, rest)
    else chooseSeparator dflt rest text

/-- The split-processing loop of `RecursiveCharacterTextSplitter._split_text`:
pieces shorter than `chunkSize` are buffered and merged; longer pieces
flush the buffer and are recursively re-split with the lower-priority
separators (or emitted whole when none remain).  With
`keep_separator=True` the merge separator is the empty string. -/
def processSplits (chunkSize chunkOverlap : Int)
    (recur : Option (PyStr → List PyStr)) :
    List PyStr → List PyStr → List PyStr → List PyStr
  | [], final, good =>
    final ++ (if good ≠ [] then mergeSplits chunkSize chunkOverlap [] good else [])
  | s :: rest, final, good =>
    if (s.length : Int) < chunkSize then
      processSplits chunkSize chunkOverlap recur rest final (good ++ [s])
    else
      let final1 :=
        final ++ (if good ≠ [] then mergeSplits chunkSize chunkOverlap [] good else [])
      let final2 :=
        match recur with
        | none => final1 ++ [s]
        | some f => final1 ++ f s
      processSplits chunkSize chunkOverlap recur rest final2 []

/-- `RecursiveCharacterTextSplitter._split_text`, with the recursion on the
strictly shrinking separator list driven by a fuel argument (the fuel is
always instantiated with the separator-list length, which the recursion
never exhausts since the chosen remaining separators form a proper tail). -/
def splitTextFuel (chunkSize chunkOverlap : Int) :
    Nat → List PyStr → PyStr → List PyStr
  | 0, _, text => [text]
  | fuel + 1, seps, text =>
    let chosen := chooseSeparator (seps.getLastD []) seps text
    let splits := splitTextWithSeparator chosen.1 text
    let recur :=
      if chosen.2 = [] then none
      else some (fun s => splitTextFuel chunkSize chunkOverlap fuel chosen.2 s)
    processSplits chunkSize chunkOverlap recur splits [] []

/-- The separators configured in `DocumentProcessorService.__init__`:
`["\n\n", "\n", " ", ""]`. -/
def defaultSeparators : List PyStr := [[10, 10], [10], [32], []]

/-- `RecursiveCharacterTextSplitter.split_text` for the configured
separators. -/
def split_text (chunkSize chunkOverlap : Int) (text : PyStr) : List PyStr :=
  splitTextFuel chunkSize chunkOverlap defaultSeparators.length defaultSeparators text

/-! ## Documents and chunk metadata

`langchain.schema.Document` carries a text payload and a metadata dict.
The metadata dict is modelled by an opaque tag `base` standing for the
contents the document already had (deep-copied onto each chunk by the
splitter), plus the two keys `DocumentProcessorService.split_documents`
writes: `chunk_id` (a fresh UUID, modelled as a draw from a supplied
injective-by-convention generator) and `chunk_index`. -/

structure Metadata where
  base : Nat
  chunk_id : Option Nat := none
  chunk_index : Option Nat := none
deriving DecidableEq, Repr

structure Document where
  page_content : PyStr
  metadata : Metadata
deriving DecidableEq, Repr

/-- langchain `TextSplitter.split_documents` / `create_documents`: split
each document's text and give every produced chunk a copy of its source
document's metadata, concatenating the per-document chunk lists in order. -/
def splitterSplitDocuments (chunkSize chunkOverlap : Int)
    (docs : List Document) : List Document :=
  docs.flatMap fun d =>
    (split_text chunkSize chunkOverlap d.page_content).map
      fun c => { page_content := c, metadata := d.metadata }

/-- The `for i, chunk in enumerate(chunks)` loop of
`DocumentProcessorService.split_documents` (document_processor.py,
lines 121-123): walk the whole batch of chunks, setting
`metadata["chunk_id"] = str(uuid.uuid4())` (the `i`-th draw of the
generator) and `metadata["chunk_index"] = i`. -/
def assignIds (gen : Nat → Nat) : Nat → List Document → List Document
  | _, [] => []
  | i, c :: rest =>
    { c with metadata :=
        { c.metadata with chunk_id := some (gen i), chunk_index := some i } }
      :: assignIds gen (i + 1) rest

/-- `DocumentProcessorService.split_documents` (document_processor.py,
lines 105-126): delegate to the splitter, then decorate every chunk of the
batch with `chunk_id` and `chunk_index`. -/
def split_documents (chunkSize chunkOverlap : Int) (gen : Nat → Nat)
    (docs : List Document) : List Document :=
  assignIds gen 0 (splitterSplitDocuments chunkSize chunkOverlap docs)

/-- `DocumentProcessorService.process_text` (document_processor.py,
lines 132-160): wrap raw text in a `Document` with the supplied metadata
and split it. -/
def process_text (chunkSize chunkOverlap : Int) (gen : Nat → Nat)
    (text : PyStr) (meta : Metadata) : List Document :=
  split_documents chunkSize chunkOverlap gen [{ page_content := text, metadata := meta }]

/-! ## Source-document truncation (QAService._process_source_documents) -/

/-- The fixed ellipsis marker `"..."` appended by
`QAService._process_source_documents`. -/
def ellipsisMarker : PyStr := [46, 46, 46]

/-- The per-passage content transformation in
`QAService._process_source_documents` (qa_service.py, lines 135-137):
content longer than 500 characters is cut to its first 500 characters
with the ellipsis marker appended; shorter content passes through. -/
def truncateContent (content : PyStr) : PyStr :=
  if content.length > 500 then content.take 500 ++ ellipsisMarker else content

/-- `app.models.schemas.SourceDocument`. -/
structure SourceDocument where
  content : PyStr
  metadata : Metadata
  relevance_score : Option ℚ
deriving DecidableEq, Repr

/-- `QAService._process_source_documents` (qa_service.py, lines 116-148):
truncate the first `max_sources` retrieved documents, in retrieval order,
leaving `relevance_score` unset. -/
def processSourceDocuments (source_docs : List Document) (max_sources : Nat) :
    List SourceDocument :=
  (source_docs.take max_sources).map fun d =>
    { content := truncateContent d.page_content
      metadata := d.metadata
      relevance_score := none }

/-! ## Vector store service

The remote Pinecone index is opaque; what the service code can observe of
it for a fixed query is the ranked response list (document together with
its similarity score) that `asimilarity_search_with_score` /
`asimilarity_search` would return.  The remote store's documented contract
(results ranked by descending similarity, at most `k` of them) appears as
the `take k` below and as sortedness hypotheses in the theorems. -/

/-- Python float truthiness of the `score_threshold` argument as used by
`if score_threshold:` (vector_store.py, line 112): `None` and `0.0` are
falsy, every other float is truthy. -/
def pyTruthyFloat : Option ℚ → Bool
  | none => false
  | some v => decide (v ≠ 0)

/-- The remote `asimilarity_search_with_score(query, k)` call: the ranked
response `ranked` cut to its first `k` entries. -/
def searchWithScore (ranked : List (Document × ℚ)) (k : Nat) :
    List (Document × ℚ) :=
  ranked.take k

/-- The remote `asimilarity_search(query, k)` call: the same entries
without their scores. -/
def searchPlain (ranked : List (Document × ℚ)) (k : Nat) : List Document :=
  (ranked.take k).map Prod.fst

/-- The branch logic of `VectorStoreService.similarity_search`
(vector_store.py, lines 109-126): with a truthy threshold, run the scored
search and keep entries with `score >= score_threshold`; otherwise run the
plain search. -/
def similaritySearchCore (ranked : List (Document × ℚ)) (k : Nat)
    (score_threshold : Option ℚ) : List Document :=
  if pyTruthyFloat score_threshold then
    ((searchWithScore ranked k).filter
        fun p => score_threshold.getD 0 ≤ p.2).map Prod.fst
  else
    searchPlain ranked k

/-- Error taxonomy at the service layer: the guarded `RuntimeError("...not
initialized...")` raised by `_ensure_initialized` versus an error from a
remote call, propagated with its message. -/
inductive ServiceError where
  | notInitialized
  | upstream (msg : PyStr)
deriving DecidableEq, Repr

/-- `VectorStoreService` instance state: the `_initialized` flag together
with the remote client handles, modelled as construction-counter stamps. -/
structure VSState where
  initialized : Bool
  client : Option Nat := none
deriving DecidableEq, Repr

/-- `VectorStoreService.similarity_search` including its
`_ensure_initialized` guard (vector_store.py, lines 90-130). -/
def vsSimilaritySearch (vs : VSState) (ranked : List (Document × ℚ))
    (k : Nat) (score_threshold : Option ℚ) :
    Except ServiceError (List Document) :=
  if vs.initialized = false then .error .notInitialized
  else .ok (similaritySearchCore ranked k score_threshold)

/-! ## QA service -/

/-- The configuration fields consumed by the modelled code paths
(`app.core.config.Settings`).  Pydantic validates `chunk_size ∈ [100,4000]`
and `chunk_overlap ∈ [0,500]` at startup; theorems carry those bounds as
hypotheses where they matter. -/
structure AppSettings where
  llm_model : PyStr
  skip_document_processing : Bool
  chunk_size : Int
  chunk_overlap : Int
deriving DecidableEq, Repr

/-- `QAService` instance state: the `_initialized` flag and the `_llm` /
`_qa_chain` handles, modelled as construction-counter stamps. -/
structure QAState where
  initialized : Bool
  llm : Option Nat := none
  qaChain : Option Nat := none
deriving DecidableEq, Repr

/-- Counters for remote-client constructions performed so far in the
process; a constructed client is stamped with the counter value at its
construction, so distinct constructions yield distinct handles. -/
structure World where
  llmConstructions : Nat := 0
  chainConstructions : Nat := 0
  vsInitCalls : Nat := 0
deriving DecidableEq, Repr

/-- `VectorStoreService.initialize` (vector_store.py, lines 25-52): the
Pinecone / embeddings / vector-store constructions are remote and may
fail, in which case the exception propagates and `_initialized` stays
false; on success the flag is set to true.  `outcome` is the combined
result of the three remote constructions. -/
def vsInitialize (w : World) (vs : VSState) (outcome : Except PyStr Unit) :
    Except PyStr (World × VSState) :=
  match outcome with
  | .error e => .error e
  | .ok _ =>
    .ok ({ w with vsInitCalls := w.vsInitCalls + 1 },
         { initialized := true, client := some w.vsInitCalls })

/-- `QAService.initialize` (qa_service.py, lines 25-60): initialize the
vector store if (and only if) its flag is not yet set, then construct a
fresh `ChatGoogleGenerativeAI` client and a fresh `RetrievalQA` chain and
mark the service initialized.  Note there is no guard on the QA service's
own `_initialized` flag. -/
def qaInitialize (w : World) (vs : VSState) (st : QAState)
    (vsOutcome : Except PyStr Unit) :
    Except PyStr (World × VSState × QAState) :=
  match (if vs.initialized then .ok (w, vs) else vsInitialize w vs vsOutcome) with
  | .error e => .error e
  | .ok (w1, vs1) =>
    let llmId := w1.llmConstructions
    let w2 := { w1 with llmConstructions := w1.llmConstructions + 1 }
    let chainId := w2.chainConstructions
    let w3 := { w2 with chainConstructions := w2.chainConstructions + 1 }
    .ok (w3, vs1,
      { initialized := true, llm := some llmId, qaChain := some chainId })

/-- Externally visible remote calls recorded by the modelled operations. -/
inductive Effect where
  | retrieval (query : PyStr) (k : Nat)
  | chainInvoke (query : PyStr)
  | fileRead
  | chunkText
  | indexAdd
deriving DecidableEq, Repr

/-- `app.models.schemas.QueryRequest`. -/
structure QueryRequest where
  query : PyStr
  include_sources : Bool
  max_sources : Nat
deriving DecidableEq, Repr

/-- `app.models.schemas.QueryResponse`; `processing_time` is wall-clock
time and is not modelled. -/
structure QueryResponse where
  answer : PyStr
  sources : Option (List SourceDocument)
  query : PyStr
  model_used : PyStr
deriving DecidableEq, Repr

/-- The value of `self._qa_chain.ainvoke(...)`: the generated answer and
the retrieved source documents. -/
structure ChainResult where
  result : PyStr
  source_documents : List Document
deriving DecidableEq, Repr

/-- `QAService.answer_query` (qa_service.py, lines 67-114):
`_ensure_initialized` first (raising the guarded error before any remote
work), then invoke the retrieval-QA chain — `chainOutcome` is that remote
call's result — and package the answer, attaching truncated sources when
requested and non-empty.  Returns the result together with the trace of
remote calls issued. -/
def answer_query (cfg : AppSettings) (st : QAState) (req : QueryRequest)
    (chainOutcome : Except PyStr ChainResult) :
    Except ServiceError QueryResponse × List Effect :=
  if st.initialized = false then (.error .notInitialized, [])
  else
    match chainOutcome with
    | .error e => (.error (.upstream e), [.chainInvoke req.query])
    | .ok r =>
      let sources :=
        if req.include_sources ∧ r.source_documents ≠ [] then
          some (processSourceDocuments r.source_documents req.max_sources)
        else none
      (.ok { answer := r.result, sources := sources, query := req.query,
             model_used := cfg.llm_model },
       [.chainInvoke req.query])

/-- `QAService.get_similar_documents` (qa_service.py, lines 150-181):
`_ensure_initialized` first, then a direct vector-store similarity search
(`searchOutcome` is that call's result) processed through the same
source-document truncation with `max_sources = k`. -/
def get_similar_documents (st : QAState) (query : PyStr) (k : Nat)
    (searchOutcome : Except PyStr (List Document)) :
    Except ServiceError (List SourceDocument) × List Effect :=
  if st.initialized = false then (.error .notInitialized, [])
  else
    match searchOutcome with
    | .error e => (.error (.upstream e), [.retrieval query k])
    | .ok docs => (.ok (processSourceDocuments docs k), [.retrieval query k])

/-- The fixed canary question `"What is health?"` used by
`QAService.health_check`. -/
def canaryQuestion : PyStr :=
  [87, 104, 97, 116, 32, 105, 115, 32, 104, 101, 97, 108, 116, 104, 63]

/-- The status strings of the health-check dictionary. -/
inductive HealthStatus where
  | healthy
  | unhealthy
  | not_initialized
deriving DecidableEq, Repr

/-- The dictionary returned by `QAService.health_check`; `response_time`
is wall-clock time and is not modelled. -/
structure HealthReport where
  status : HealthStatus
  model : Option PyStr := none
  retrieval_working : Option Bool := none
  error : Option PyStr := none
deriving DecidableEq, Repr

/-- `QAService.health_check` (qa_service.py, lines 183-212): report
`not_initialized` before initialization; otherwise issue one `k = 1`
retrieval for the canary question and report `healthy` with diagnostics,
or `unhealthy` carrying the captured error message if that retrieval
throws.  The whole body is wrapped in try/except, so the function is
total: every outcome maps to a report. -/
def qaHealthCheck (cfg : AppSettings) (st : QAState)
    (retrievalOutcome : Except PyStr (List Document)) :
    HealthReport × List Effect :=
  if st.initialized = false then
    ({ status := .not_initialized }, [])
  else
    match retrievalOutcome with
    | .ok docs =>
      ({ status := .healthy, model := some cfg.llm_model,
         retrieval_working := some (docs ≠ []) },
       [.retrieval canaryQuestion 1])
    | .error e =>
      ({ status := .unhealthy, error := some e }, [.retrieval canaryQuestion 1])

/-! ## Startup lifecycle (app.main.lifespan) -/

/-- Result of the document-ingestion pipeline
(`document_processor_service.process_directory` followed by
`vector_store_service.add_documents`) when it does not throw. -/
inductive IngestOutcome where
  | success (documentsLoaded chunksCreated : Nat)
  | noDocuments
deriving DecidableEq, Repr

/-- What happened to the bulk-ingestion step during startup. -/
inductive IngestStep where
  | skippedByFlag
  | skippedNonEmpty (count : Nat)
  | ingested (documentsLoaded chunksCreated : Nat)
  | noDocumentsFound
  | swallowedFailure (msg : PyStr)
deriving DecidableEq, Repr

/-- The body of the inner `try` of `lifespan` once the skip conditions do
not apply: run the pipeline and swallow any exception into a logged
warning. -/
def runPipeline : Except PyStr IngestOutcome → IngestStep
  | .ok (.success d c) => .ingested d c
  | .ok .noDocuments => .noDocumentsFound
  | .error e => .swallowedFailure e

/-- `app.main.lifespan` startup sequence (main.py, lines 15-52):
`vector_store_service.initialize()` then `qa_service.initialize()` —
either failure propagates out of startup — then the best-effort ingestion
step: skipped when `settings.skip_document_processing` is set, skipped
when the index stats report a positive vector count (`stats` is the
`total_vector_count` of `get_index_stats`, or `none` when that diagnostic
returned `None`), and otherwise the pipeline runs with every failure
swallowed. -/
def lifespan (cfg : AppSettings) (vsOutcome qaOutcome : Except PyStr Unit)
    (stats : Option Nat) (pipeline : Except PyStr IngestOutcome) :
    Except PyStr IngestStep :=
  match vsOutcome with
  | .error e => .error e
  | .ok _ =>
    match qaOutcome with
    | .error e => .error e
    | .ok _ =>
      .ok (if cfg.skip_document_processing then .skippedByFlag
           else
             match stats with
             | some n => if 0 < n then .skippedNonEmpty n else runPipeline pipeline
             | none => runPipeline pipeline)

/-! ## Upload endpoint (app.api.endpoints.upload_document) -/

/-- MIME types relevant to the upload endpoint. -/
inductive ContentType where
  | applicationPdf
  | textPlain
  | textMarkdown
  | other
deriving DecidableEq, Repr

/-- The HTTP failures `upload_document` can raise: 400 for a disallowed
MIME type, 501 for the explicit "PDF upload not yet implemented" branch,
500 wrapping any other exception's message. -/
inductive UploadError where
  | badRequest
  | notImplemented
  | internal (msg : PyStr)
deriving DecidableEq, Repr

/-- `app.models.schemas.DocumentUploadResponse` (the claim-relevant
fields; `message` is a fixed string and `processing_time` wall-clock). -/
structure UploadResponse where
  chunks_created : Nat
  document_id : Option Nat
deriving DecidableEq, Repr

/-- `upload_document` (endpoints.py, lines 116-187): reject MIME types
outside the allow-list with 400; read the file; fail PDF uploads with the
explicit 501 before any chunking or indexing; otherwise chunk the decoded
text through the document processor and add the chunks to the vector
store (`addOutcome` is that remote call, yielding the stored ids),
answering with the number of chunks created.  The effect trace records
the file read, the chunking, and the index insertion. -/
def upload_document (cfg : AppSettings) (gen : Nat → Nat) (ct : ContentType)
    (content : PyStr) (meta : Metadata)
    (addOutcome : Except PyStr (List Nat)) :
    Except UploadError UploadResponse × List Effect :=
  if ct ∉ [ContentType.applicationPdf, .textPlain, .textMarkdown] then
    (.error .badRequest, [])
  else if ct = .applicationPdf then
    (.error .notImplemented, [.fileRead])
  else
    let chunks := process_text cfg.chunk_size cfg.chunk_overlap gen content meta
    match addOutcome with
    | .error e => (.error (.internal e), [.fileRead, .chunkText, .indexAdd])
    | .ok ids =>
      (.ok { chunks_created := chunks.length, document_id := ids.head? },
       [.fileRead, .chunkText, .indexAdd])

/-! ## Remaining vector-store operations and the combined system -/

/-- The result dictionary of `VectorStoreService.add_documents`. -/
structure AddResult where
  documents_added : Nat
  document_ids : List Nat
deriving DecidableEq, Repr

/-- `VectorStoreService.add_documents` (vector_store.py, lines 59-88):
`_ensure_initialized` guard, then the remote upsert (`outcome` carries the
ids it returned or its exception). -/
def vsAddDocuments (vs : VSState) (docs : List Document)
    (outcome : Except PyStr (List Nat)) :
    Except ServiceError AddResult × List Effect :=
  if vs.initialized = false then (.error .notInitialized, [])
  else
    match outcome with
    | .error e => (.error (.upstream e), [.indexAdd])
    | .ok ids => (.ok { documents_added := docs.length, document_ids := ids },
                  [.indexAdd])

/-- `VectorStoreService.get_index_stats` (vector_store.py, lines 147-166):
`None` when uninitialized or when the remote stats call throws, otherwise
the reported total vector count.  Never raises. -/
def vsGetIndexStats (vs : VSState) (statsOutcome : Except PyStr Nat) :
    Option Nat :=
  if vs.initialized = false then none
  else
    match statsOutcome with
    | .ok n => some n
    | .error _ => none

/-- Combined state of the two service singletons and the construction
counters. -/
structure Sys where
  w : World
  vs : VSState
  qa : QAState
deriving DecidableEq, Repr

/-- One invocation of a public operation of either service, with the
outcomes of its remote calls. -/
inductive SysOp where
  | vsInit (outcome : Except PyStr Unit)
  | qaInit (outcome : Except PyStr Unit)
  | vsSearch (ranked : List (Document × ℚ)) (k : Nat) (t : Option ℚ)
  | vsAdd (docs : List Document) (outcome : Except PyStr (List Nat))
  | vsStats (outcome : Except PyStr Nat)
  | qaAnswer (cfg : AppSettings) (req : QueryRequest)
      (outcome : Except PyStr ChainResult)
  | qaSimilar (query : PyStr) (k : Nat) (outcome : Except PyStr (List Document))
  | qaHealth (cfg : AppSettings) (outcome : Except PyStr (List Document))

/-- The effect of each operation on the service state.  Only the two
`initialize` methods assign instance attributes in the source; every
other modelled method (`similarity_search`, `add_documents`,
`get_index_stats`, `answer_query`, `get_similar_documents`,
`health_check`) only reads them, so it maps the state to itself.  A
failed `initialize` leaves the `_initialized` flag unset (the flag
assignment is the last statement of the `try` body). -/
def stepSys (s : Sys) : SysOp → Sys
  | .vsInit o =>
    match vsInitialize s.w s.vs o with
    | .error _ => s
    | .ok (w1, vs1) => { w := w1, vs := vs1, qa := s.qa }
  | .qaInit o =>
    match qaInitialize s.w s.vs s.qa o with
    | .error _ => s
    | .ok (w1, vs1, qa1) => { w := w1, vs := vs1, qa := qa1 }
  | .vsSearch _ _ _ => s
  | .vsAdd _ _ => s
  | .vsStats _ => s
  | .qaAnswer _ _ _ => s
  | .qaSimilar _ _ _ => s
  | .qaHealth _ _ => s

/-! # Theorems for the claims -/

set_option maxRecDepth 100000

/-! ## C1 — chunk_index assignment in split_documents -/

/-- A ten-character source document tagged `1` in its metadata. -/
def docA : Document :=
  { page_content := List.replicate 10 97, metadata := { base := 1 } }

/-- A ten-character source document tagged `2` in its metadata. -/
def docB : Document :=
  { page_content := List.replicate 10 98, metadata := { base := 2 } }

theorem assignIds_length (gen : Nat → Nat) (n : Nat) (l : List Document) :
    (assignIds gen n l).length = l.length := by
  induction l generalizing n with
  | nil => rfl
  | cons c rest ih => simp [assignIds, ih]

theorem assignIds_get (gen : Nat → Nat) (l : List Document) (n i : Nat)
    (h : i < (assignIds gen n l).length) :
    ((assignIds gen n l).get ⟨i, h⟩).metadata.chunk_index = some (n + i) ∧
    ((assignIds gen n l).get ⟨i, h⟩).metadata.chunk_id = some (gen (n + i)) := by
  induction l generalizing n i with
  | nil => exact absurd h (by simp [assignIds])
  | cons c rest ih =>
    cases i with
    | zero => exact ⟨rfl, rfl⟩
    | succ j =>
      have hr : j < rest.length := by
        have hl := h
        rw [assignIds_length gen n (c :: rest)] at hl
        exact Nat.lt_of_succ_lt_succ hl
      have h2 : j < (assignIds gen (n + 1) rest).length := by
        rw [assignIds_length]; exact hr
      have h3 := ih (n + 1) j h2
      have key : (assignIds gen n (c :: rest)).get ⟨j + 1, h⟩ =
          (assignIds gen (n + 1) rest).get ⟨j, h2⟩ := rfl
      rw [key, show n + (j + 1) = n + 1 + j from by omega]
      exact h3

/-- C1 (amended): `split_documents` assigns `chunk_index` by a single
zero-based enumeration over the concatenated chunks of the whole batch
(and `chunk_id` from the `i`-th UUID draw): the `i`-th produced chunk of
the batch carries `chunk_index = i`, so the indices are globally unique
across documents within the batch, and only the very first chunk of the
batch — not the first chunk of every source document — has index `0`. -/
theorem c1_amended_chunk_index_is_batch_position
    (chunkSize chunkOverlap : Int) (gen : Nat → Nat) (docs : List Document)
    (i : Nat) (h : i < (split_documents chunkSize chunkOverlap gen docs).length) :
    ((split_documents chunkSize chunkOverlap gen docs).get ⟨i, h⟩).metadata.chunk_index
        = some i ∧
    ((split_documents chunkSize chunkOverlap gen docs).get ⟨i, h⟩).metadata.chunk_id
        = some (gen i) := by
  have h2 : i < (assignIds gen 0
      (splitterSplitDocuments chunkSize chunkOverlap docs)).length := h
  simpa using assignIds_get gen _ 0 i h2

/-- Witness for `c1_amended_chunk_index_is_batch_position` at a concrete
two-document batch. -/
theorem c1_amended_chunk_index_is_batch_position_witness :
    ((split_documents 1000 100 (fun j => j) [docA, docB]).get
        ⟨1, by decide⟩).metadata.chunk_index = some 1 :=
  (c1_amended_chunk_index_is_batch_position 1000 100 (fun j => j)
    [docA, docB] 1 (by decide)).1

/-- The `chunk_index` carried by the first chunk (in batch order) whose
metadata came from the source document tagged `tag`. -/
abbrev firstChunkIndexOfSource (res : List Document) (tag : Nat) :
    Option (Option Nat) :=
  ((res.filter fun c => c.metadata.base == tag).head?).map
    fun c => c.metadata.chunk_index

/-- C1 counterexample: in a batch of two ten-character documents (each of
which the configured splitter, `chunk_size = 1000`, `chunk_overlap = 100`,
turns into exactly one chunk), the first chunk of the second source
document carries `chunk_index = 1`, not `0`: the index reflects position
in the whole batch, not order within the chunk's own source document, and
the indices are globally unique across the batch's documents. -/
theorem c1_counterexample :
    (split_documents 1000 100 (fun j => j) [docA, docB]).map
        (fun c => (c.metadata.base, c.metadata.chunk_index)) =
      [(1, some 0), (2, some 1)] ∧
    firstChunkIndexOfSource (split_documents 1000 100 (fun j => j) [docA, docB]) 2
      ≠ some (some 0) := by
  decide

/-! ## C2 — exact chunk_overlap between consecutive chunks -/

/-- The trailing `o` characters of `a` coincide with the leading `o`
characters of `b`. -/
abbrev sharesExactWindow (o : Nat) (a b : PyStr) : Prop :=
  List.drop (a.length - o) a = List.take o b

/-- The property claimed by C2 for the chunk list produced from one
document: every chunk has length at most `s`, and every pair of
consecutive chunks not involving the final chunk shares exactly `o`
characters (trailing of the earlier = leading of the next). -/
abbrev c2ExactOverlapClaim (s o : Nat) (chunks : List PyStr) : Prop :=
  (∀ c ∈ chunks, c.length ≤ s) ∧
  ∀ i < chunks.length - 2,
    sharesExactWindow o (chunks.getD i []) (chunks.getD (i + 1) [])

/-- A 30-character run of the code point `c`. -/
def wordRun (c : Nat) : PyStr := List.replicate 30 c

/-- Eight 30-character words separated by single spaces — 247 characters
in total. -/
def eightWordText : PyStr :=
  List.intercalate [32] [wordRun 97, wordRun 98, wordRun 99, wordRun 100,
    wordRun 101, wordRun 102, wordRun 103, wordRun 104]

/-- The chunks the configured splitter produces for `eightWordText` with
`chunk_size = 100` and `chunk_overlap = 40` (a configuration inside the
validated ranges, with `0 ≤ 40 < 100`). -/
def scenarioChunks : List PyStr := split_text 100 40 eightWordText

/-- C2 counterexample: with `chunk_size = 100`, `chunk_overlap = 40` and a
247-character document of eight 30-character words, the splitter produces
four chunks, and the first two chunks — a pair not involving the final
chunk — do not share exactly 40 characters: the retained overlap window
is made of whole separator-delimited pieces (here a single 30-character
word), so the trailing 40 characters of chunk 0 differ from the leading
40 characters of chunk 1. -/
theorem c2_counterexample :
    eightWordText.length = 247 ∧
    ¬ c2ExactOverlapClaim 100 40 (split_text 100 40 eightWordText) := by
  decide

/-- C2 (amended): adjacent chunks overlap by at most `chunk_overlap`
characters — a window of whole separator-delimited pieces — rather than
by exactly `chunk_overlap`.  Concretely, for the 247-character document of
eight 30-character words with `chunk_size = 100`, `chunk_overlap = 40`:
four chunks of lengths 92, 92, 92, 61, each of length at most 100, and
every pair of consecutive chunks shares exactly one whole 30-character
word (trailing 30 characters = leading 30 characters), not 40 characters. -/
theorem c2_amended_overlap_is_whole_pieces :
    scenarioChunks.map List.length = [92, 92, 92, 61] ∧
    sharesExactWindow 30 (scenarioChunks.getD 0 []) (scenarioChunks.getD 1 []) ∧
    sharesExactWindow 30 (scenarioChunks.getD 1 []) (scenarioChunks.getD 2 []) ∧
    sharesExactWindow 30 (scenarioChunks.getD 2 []) (scenarioChunks.getD 3 []) ∧
    ¬ sharesExactWindow 40 (scenarioChunks.getD 0 []) (scenarioChunks.getD 1 []) := by
  decide

/-! ## C3 — score_threshold filtering in similarity_search -/

/-- A document with empty content, tagged `0`. -/
def doc0 : Document := { page_content := [], metadata := { base := 0 } }

/-- An initialized vector-store service state. -/
def readyVS : VSState := { initialized := true, client := some 0 }

/-- What C3 asserts of a store whose ranked response for the query is
`ranked`: every store entry whose document is returned by
`similarity_search` with threshold `t` has similarity score at least `t`. -/
abbrev returnsOnlyAtOrAbove (vs : VSState) (ranked : List (Document × ℚ))
    (k : Nat) (t : ℚ) : Prop :=
  ∀ p ∈ ranked,
    p.1 ∈ ((vsSimilaritySearch vs ranked k (some t)).toOption.getD []) → t ≤ p.2

/-- C3 counterexample: a supplied `score_threshold` of `0.0` is falsy in
Python (`if score_threshold:`), so the threshold branch is skipped and the
plain search runs: against a store whose only entry scores `-1`, the
search with threshold `0` returns that entry even though its score is
below the threshold. -/
theorem c3_counterexample :
    (vsSimilaritySearch readyVS [(doc0, -1)] 1 (some 0)).toOption = some [doc0] ∧
    ¬ returnsOnlyAtOrAbove readyVS [(doc0, -1)] 1 0 := by
  decide

/-- C3 (amended): for every supplied nonzero `score_threshold t`,
`similarity_search` returns exactly the entries of the ranked remote
response (itself at most `k` long, descending) whose score is at least
`t` — entries scoring below `t` are dropped even if that leaves fewer
than `k` — so the result has at most `k` entries, ordered by descending
similarity.  A supplied threshold of `0.0` is instead treated as absent
by the Python truthiness test, so with `t = 0` entries scoring below `0`
are not dropped. -/
theorem c3_amended_nonzero_threshold_filters
    (vs : VSState) (ranked : List (Document × ℚ)) (k : Nat) (t : ℚ)
    (hvs : vs.initialized = true) (ht : t ≠ 0)
    (hrank : ranked.Pairwise fun a b => b.2 ≤ a.2) :
    ∃ scored : List (Document × ℚ),
      vsSimilaritySearch vs ranked k (some t) = .ok (scored.map Prod.fst) ∧
      (∀ p ∈ scored, t ≤ p.2) ∧
      scored.length ≤ k ∧
      scored.Pairwise (fun a b => b.2 ≤ a.2) := by
  refine ⟨(ranked.take k).filter (fun p => decide (t ≤ p.2)), ?_, ?_, ?_, ?_⟩
  · simp [vsSimilaritySearch, hvs, similaritySearchCore, pyTruthyFloat, ht,
      searchWithScore]
  · intro p hp
    exact of_decide_eq_true (List.mem_filter.1 hp).2
  · exact le_trans (List.length_filter_le _ _) (List.length_take_le k ranked)
  · exact List.Pairwise.sublist
      ((List.filter_sublist _).trans (List.take_sublist _ _)) hrank

/-- Witness for `c3_amended_nonzero_threshold_filters` at a concrete
one-entry store with threshold one half. -/
theorem c3_amended_nonzero_threshold_filters_witness :
    ∃ scored : List (Document × ℚ),
      vsSimilaritySearch readyVS [(doc0, 1)] 1 (some (1 / 2)) =
        .ok (scored.map Prod.fst) ∧
      (∀ p ∈ scored, (1 : ℚ) / 2 ≤ p.2) ∧
      scored.length ≤ 1 ∧
      scored.Pairwise (fun a b => b.2 ≤ a.2) :=
  c3_amended_nonzero_threshold_filters readyVS [(doc0, 1)] 1 (1 / 2)
    rfl (by norm_num) (by simp)

/-! ## C4 — source-passage truncation -/

/-- C4: truncation leaves passages of at most 500 characters unchanged,
cuts longer passages to exactly their first 500 characters plus the
fixed ellipsis marker, and is idempotent on its own output; the processed
source list has at most `max_sources` entries, the `i`-th derived from
the `i`-th retrieved document in retrieval order. -/
theorem c4_truncation_idempotent
    (content : PyStr) (docs : List Document) (maxs : Nat) :
    (content.length ≤ 500 → truncateContent content = content) ∧
    (500 < content.length →
      truncateContent content = content.take 500 ++ ellipsisMarker) ∧
    truncateContent (truncateContent content) = truncateContent content ∧
    (processSourceDocuments docs maxs).length ≤ maxs ∧
    ∀ i (hi : i < (processSourceDocuments docs maxs).length) (hd : i < docs.length),
      (processSourceDocuments docs maxs).get ⟨i, hi⟩ =
        { content := truncateContent ((docs.get ⟨i, hd⟩).page_content),
          metadata := (docs.get ⟨i, hd⟩).metadata,
          relevance_score := none } := by
  refine ⟨?_, ?_, ?_, ?_, ?_⟩
  · intro h
    simp [truncateContent, show ¬ (500 < content.length) from by omega]
  · intro h
    simp [truncateContent, h]
  · by_cases h : 500 < content.length
    · have h1 : truncateContent content = content.take 500 ++ ellipsisMarker := by
        simp [truncateContent, h]
      have hlen : (content.take 500 ++ ellipsisMarker).length = 503 := by
        simp [List.length_append, List.length_take, ellipsisMarker]
        omega
      have htk : (content.take 500).length = 500 := by
        simp [List.length_take]
        omega
      rw [h1]
      simp only [truncateContent, hlen]
      rw [if_pos (by omega)]
      rw [List.take_append_of_le_length (by omega), List.take_take]
      norm_num
    · have h1 : truncateContent content = content := by
        simp [truncateContent, h]
      rw [h1, h1]
  · simp [processSourceDocuments]
  · intro i hi hd
    simp [processSourceDocuments, List.get_eq_getElem, List.getElem_map,
      List.getElem_take]

/-- Witness for `c4_truncation_idempotent`: a 501-character passage is
cut to its first 500 characters plus the marker, and a one-character
passage passes through unchanged. -/
theorem c4_truncation_idempotent_witness :
    (truncateContent (List.replicate 501 97) =
      (List.replicate 501 97).take 500 ++ ellipsisMarker) ∧
    truncateContent [97] = [97] :=
  ⟨(c4_truncation_idempotent (List.replicate 501 97) [] 0).2.1 (by decide),
   (c4_truncation_idempotent [97] [] 0).1 (by decide)⟩

/-! ## C5 — NotInitialized guard on the query paths -/

/-- A settings value with the validated defaults
(`chunk_size = 1000`, `chunk_overlap = 100`, skip flag unset). -/
def cfg0 : AppSettings :=
  { llm_model := [103], skip_document_processing := false,
    chunk_size := 1000, chunk_overlap := 100 }

/-- The combined state at process start: no constructions performed,
neither service initialized. -/
def sys0 : Sys :=
  { w := {}, vs := { initialized := false }, qa := { initialized := false } }

/-- C5: invoked before `initialize()` has completed, both `answer_query`
and `get_similar_documents` fail with precisely the guarded
`NotInitialized` error — not a generic one — having issued no retrieval
or generation call (empty effect trace), and the service state is left
unchanged. -/
theorem c5_not_initialized_guard (cfg : AppSettings) (st : QAState)
    (req : QueryRequest) (chainOutcome : Except PyStr ChainResult)
    (q : PyStr) (k : Nat) (searchOutcome : Except PyStr (List Document))
    (s : Sys) (h : st.initialized = false) :
    answer_query cfg st req chainOutcome = (.error .notInitialized, []) ∧
    get_similar_documents st q k searchOutcome = (.error .notInitialized, []) ∧
    stepSys s (.qaAnswer cfg req chainOutcome) = s ∧
    stepSys s (.qaSimilar q k searchOutcome) = s := by
  refine ⟨?_, ?_, rfl, rfl⟩ <;> simp [answer_query, get_similar_documents, h]

/-- Witness for `c5_not_initialized_guard` on the fresh process state. -/
theorem c5_not_initialized_guard_witness :
    answer_query cfg0 { initialized := false }
        { query := [113], include_sources := true, max_sources := 3 }
        (.ok { result := [], source_documents := [] }) =
      (.error .notInitialized, []) ∧
    get_similar_documents { initialized := false } [113] 4 (.ok []) =
      (.error .notInitialized, []) ∧
    stepSys sys0 (.qaAnswer cfg0
        { query := [113], include_sources := true, max_sources := 3 }
        (.ok { result := [], source_documents := [] })) = sys0 ∧
    stepSys sys0 (.qaSimilar [113] 4 (.ok [])) = sys0 :=
  c5_not_initialized_guard cfg0 { initialized := false }
    { query := [113], include_sources := true, max_sources := 3 }
    (.ok { result := [], source_documents := [] }) [113] 4 (.ok []) sys0 rfl

/-! ## C6 — re-entrant initialize -/

/-- What C6 asserts of a Ready state: calling `initialize()` again
returns with the construction counters and both services exactly as they
were (no new remote clients, no state change). -/
abbrev reinitIsNoop (w : World) (vs : VSState) (st : QAState) : Prop :=
  qaInitialize w vs st (.ok ()) = .ok (w, vs, st)

/-- The world after one successful `initialize()` from scratch. -/
def worldAfterInit : World :=
  { llmConstructions := 1, chainConstructions := 1, vsInitCalls := 1 }

/-- The vector-store state after one successful `initialize()`. -/
def vsAfterInit : VSState := { initialized := true, client := some 0 }

/-- The QA state after one successful `initialize()`. -/
def qaAfterInit : QAState :=
  { initialized := true, llm := some 0, qaChain := some 0 }

/-- C6 counterexample: starting from the fresh process state, one
successful `initialize()` reaches the Ready state `qaAfterInit` with one
LLM and one chain construction; calling `initialize()` a second time from
there is not a no-op — `QAService.initialize` has no guard on its own
`_initialized` flag, so it constructs a second LLM client and a second
chain and reassigns both handles. -/
theorem c6_counterexample :
    qaInitialize {} { initialized := false } { initialized := false } (.ok ()) =
      .ok (worldAfterInit, vsAfterInit, qaAfterInit) ∧
    qaInitialize worldAfterInit vsAfterInit qaAfterInit (.ok ()) =
      .ok ({ llmConstructions := 2, chainConstructions := 2, vsInitCalls := 1 },
           vsAfterInit,
           { initialized := true, llm := some 1, qaChain := some 1 }) ∧
    ¬ reinitIsNoop worldAfterInit vsAfterInit qaAfterInit := by
  refine ⟨rfl, rfl, ?_⟩
  intro hno
  have h2 : qaInitialize worldAfterInit vsAfterInit qaAfterInit (.ok ()) =
      .ok ({ llmConstructions := 2, chainConstructions := 2, vsInitCalls := 1 },
           vsAfterInit,
           { initialized := true, llm := some 1, qaChain := some 1 }) := rfl
  rw [reinitIsNoop, h2] at hno
  simp [worldAfterInit, qaAfterInit] at hno

/-- C6 (amended): a second call to `initialize()` after Ready is not a
no-op: it does skip re-initializing the vector store (that call is
guarded by the vector store's own flag), but it constructs a fresh
generative-model client and a fresh retrieval chain — advancing both
construction counters — and reassigns the service's handles to the new
stamps, leaving the flag `true`. -/
theorem c6_amended_reinit_reconstructs (w : World) (vs : VSState)
    (st : QAState) (outcome : Except PyStr Unit)
    (h : vs.initialized = true) :
    qaInitialize w vs st outcome =
      .ok ({ w with llmConstructions := w.llmConstructions + 1,
                    chainConstructions := w.chainConstructions + 1 },
           vs,
           { initialized := true, llm := some w.llmConstructions,
             qaChain := some w.chainConstructions }) := by
  simp [qaInitialize, h]

/-- Witness for `c6_amended_reinit_reconstructs` at the post-initialize
state. -/
theorem c6_amended_reinit_reconstructs_witness :
    qaInitialize worldAfterInit vsAfterInit qaAfterInit (.ok ()) =
      .ok ({ llmConstructions := 2, chainConstructions := 2, vsInitCalls := 1 },
           vsAfterInit,
           { initialized := true, llm := some 1, qaChain := some 1 }) :=
  c6_amended_reinit_reconstructs worldAfterInit vsAfterInit qaAfterInit
    (.ok ()) rfl

/-! ## C7 — health check -/

/-- C7: the health check is a total function of the state and the canary
retrieval's outcome (the `try`/`except` wrapper catches everything, so it
never raises): uninitialized it reports `not_initialized` without issuing
any retrieval; initialized it issues exactly one `k = 1` retrieval of the
fixed canary question and reports `healthy` with diagnostics on success,
or `unhealthy` carrying the captured error message on failure. -/
theorem c7_health_check_never_raises (cfg : AppSettings) (st : QAState)
    (outcome : Except PyStr (List Document)) :
    (st.initialized = false →
      qaHealthCheck cfg st outcome = ({ status := .not_initialized }, [])) ∧
    (st.initialized = true →
      (qaHealthCheck cfg st outcome).2 = [.retrieval canaryQuestion 1] ∧
      (∀ docs, outcome = .ok docs →
        qaHealthCheck cfg st outcome =
          ({ status := .healthy, model := some cfg.llm_model,
             retrieval_working := some (docs ≠ []) },
           [.retrieval canaryQuestion 1])) ∧
      (∀ e, outcome = .error e →
        qaHealthCheck cfg st outcome =
          ({ status := .unhealthy, error := some e },
           [.retrieval canaryQuestion 1]))) := by
  constructor
  · intro h
    simp [qaHealthCheck, h]
  · intro h
    refine ⟨?_, ?_, ?_⟩
    · cases outcome <;> simp [qaHealthCheck, h]
    · intro docs hdocs
      subst hdocs
      simp [qaHealthCheck, h]
    · intro e he
      subst he
      simp [qaHealthCheck, h]

/-- Witness for `c7_health_check_never_raises`: the uninitialized report
and the unhealthy report at concrete states. -/
theorem c7_health_check_never_raises_witness :
    qaHealthCheck cfg0 { initialized := false } (.ok []) =
      ({ status := .not_initialized }, []) ∧
    qaHealthCheck cfg0 qaAfterInit (.error [98]) =
      ({ status := .unhealthy, error := some [98] },
       [.retrieval canaryQuestion 1]) :=
  ⟨(c7_health_check_never_raises cfg0 { initialized := false } (.ok [])).1 rfl,
   ((c7_health_check_never_raises cfg0 qaAfterInit (.error [98])).2 rfl).2.2
     [98] rfl⟩

/-! ## C8 — startup: skip conditions, swallowed ingestion, propagated init -/

/-- C8: during startup the bulk-ingestion step is skipped when the
configuration flag is set, and skipped when the index stats report a
positive vector count; when it runs (flag unset, stats absent or zero),
a pipeline failure is swallowed and startup still completes; a failure of
the vector-store or QA-service initialization propagates and aborts
startup. -/
theorem c8_startup_ingestion (cfg : AppSettings)
    (vsOutcome qaOutcome : Except PyStr Unit) (stats : Option Nat)
    (pipeline : Except PyStr IngestOutcome) :
    (vsOutcome = .ok () → qaOutcome = .ok () →
      cfg.skip_document_processing = true →
      lifespan cfg vsOutcome qaOutcome stats pipeline = .ok .skippedByFlag) ∧
    (vsOutcome = .ok () → qaOutcome = .ok () →
      cfg.skip_document_processing = false →
      ∀ n, stats = some n → 0 < n →
      lifespan cfg vsOutcome qaOutcome stats pipeline =
        .ok (.skippedNonEmpty n)) ∧
    (vsOutcome = .ok () → qaOutcome = .ok () →
      cfg.skip_document_processing = false →
      (stats = none ∨ stats = some 0) →
      ∀ e, pipeline = .error e →
      lifespan cfg vsOutcome qaOutcome stats pipeline =
        .ok (.swallowedFailure e)) ∧
    (∀ e, vsOutcome = .error e →
      lifespan cfg vsOutcome qaOutcome stats pipeline = .error e) ∧
    (∀ e, vsOutcome = .ok () → qaOutcome = .error e →
      lifespan cfg vsOutcome qaOutcome stats pipeline = .error e) := by
  refine ⟨?_, ?_, ?_, ?_, ?_⟩
  · intro hv hq hflag
    subst hv; subst hq
    simp [lifespan, hflag]
  · intro hv hq hflag n hn hpos
    subst hv; subst hq; subst hn
    simp [lifespan, hflag, hpos]
  · intro hv hq hflag hstats e he
    subst hv; subst hq; subst he
    rcases hstats with h0 | h0 <;> subst h0 <;>
      simp [lifespan, hflag, runPipeline]
  · intro e he
    subst he
    simp [lifespan]
  · intro e hv hq
    subst hv; subst hq
    simp [lifespan]

/-- A settings value with the skip-ingestion flag set. -/
def cfgSkip : AppSettings :=
  { llm_model := [103], skip_document_processing := true,
    chunk_size := 1000, chunk_overlap := 100 }

/-- Witness for `c8_startup_ingestion`: the flag skips ingestion, a
pipeline failure is swallowed on an empty index, and a vector-store
initialization failure aborts startup. -/
theorem c8_startup_ingestion_witness :
    lifespan cfgSkip (.ok ()) (.ok ()) none (.ok .noDocuments) =
      .ok .skippedByFlag ∧
    lifespan cfg0 (.ok ()) (.ok ()) (some 0) (.error [101]) =
      .ok (.swallowedFailure [101]) ∧
    lifespan cfg0 (.error [102]) (.ok ()) none (.ok .noDocuments) =
      .error [102] :=
  ⟨(c8_startup_ingestion cfgSkip (.ok ()) (.ok ()) none
      (.ok .noDocuments)).1 rfl rfl rfl,
   (c8_startup_ingestion cfg0 (.ok ()) (.ok ()) (some 0)
      (.error [101])).2.2.1 rfl rfl rfl (Or.inr rfl) [101] rfl,
   (c8_startup_ingestion cfg0 (.error [102]) (.ok ()) none
      (.ok .noDocuments)).2.2.2.1 [102] rfl⟩

/-! ## C9 — upload endpoint: PDF rejected before chunking -/

/-- C9: a PDF upload fails with the explicit 501 "not implemented"
result after the file read but before any chunking or indexing effect —
never silently ignored — while a text upload (plain or markdown) is
chunked by the document processor, added to the index, and answered with
the number of chunks created. -/
theorem c9_upload_pdf_not_implemented (cfg : AppSettings) (gen : Nat → Nat)
    (content : PyStr) (meta : Metadata)
    (addOutcome : Except PyStr (List Nat)) :
    upload_document cfg gen .applicationPdf content meta addOutcome =
      (.error .notImplemented, [.fileRead]) ∧
    (∀ ids, addOutcome = .ok ids →
      upload_document cfg gen .textPlain content meta addOutcome =
        (.ok { chunks_created := (process_text cfg.chunk_size
                 cfg.chunk_overlap gen content meta).length,
               document_id := ids.head? },
         [.fileRead, .chunkText, .indexAdd])) ∧
    (∀ ids, addOutcome = .ok ids →
      upload_document cfg gen .textMarkdown content meta addOutcome =
        (.ok { chunks_created := (process_text cfg.chunk_size
                 cfg.chunk_overlap gen content meta).length,
               document_id := ids.head? },
         [.fileRead, .chunkText, .indexAdd])) := by
  refine ⟨?_, ?_, ?_⟩
  · simp [upload_document]
  · intro ids hids
    subst hids
    simp [upload_document]
  · intro ids hids
    subst hids
    simp [upload_document]

/-- Witness for `c9_upload_pdf_not_implemented`: the PDF rejection and a
successful ten-character text upload producing one chunk. -/
theorem c9_upload_pdf_not_implemented_witness :
    upload_document cfg0 (fun j => j) .applicationPdf (List.replicate 10 97)
        { base := 1 } (.ok [7]) =
      (.error .notImplemented, [.fileRead]) ∧
    upload_document cfg0 (fun j => j) .textPlain (List.replicate 10 97)
        { base := 1 } (.ok [7]) =
      (.ok { chunks_created := 1, document_id := some 7 },
       [.fileRead, .chunkText, .indexAdd]) := by
  have h := c9_upload_pdf_not_implemented cfg0 (fun j => j)
    (List.replicate 10 97) { base := 1 } (.ok [7])
  refine ⟨h.1, ?_⟩
  have h2 := h.2.1 [7] rfl
  have hchunks : (process_text cfg0.chunk_size cfg0.chunk_overlap
      (fun j => j) (List.replicate 10 97) { base := 1 }).length = 1 := by decide
  rw [h2, hchunks]
  rfl

/-! ## C10 — initialization invariant across all operations -/

/-- C10: if the QA service's flag is set then so is the vector store's;
this invariant is preserved by every modelled operation of either
service, neither flag is ever cleared, and a successful
`QAService.initialize` establishes both flags (it transitively
initializes the vector store before marking itself ready). -/
theorem c10_initialized_invariant (s : Sys) (op : SysOp)
    (hinv : s.qa.initialized = true → s.vs.initialized = true) :
    ((stepSys s op).qa.initialized = true →
      (stepSys s op).vs.initialized = true) ∧
    (s.vs.initialized = true → (stepSys s op).vs.initialized = true) ∧
    (s.qa.initialized = true → (stepSys s op).qa.initialized = true) ∧
    (∀ w1 vs1 qa1 o, qaInitialize s.w s.vs s.qa o = .ok (w1, vs1, qa1) →
      qa1.initialized = true ∧ vs1.initialized = true) := by
  have hqa : ∀ w1 vs1 qa1 o,
      qaInitialize s.w s.vs s.qa o = .ok (w1, vs1, qa1) →
      qa1.initialized = true ∧ vs1.initialized = true := by
    intro w1 vs1 qa1 o hok
    by_cases hv : s.vs.initialized
    · simp [qaInitialize, hv] at hok
      exact ⟨by simp [← hok.2.2], by simp [← hok.2.1, hv]⟩
    · cases o with
      | error e => simp [qaInitialize, hv, vsInitialize] at hok
      | ok u =>
        simp [qaInitialize, hv, vsInitialize] at hok
        exact ⟨by simp [← hok.2.2], by simp [← hok.2.1]⟩
  refine ⟨?_, ?_, ?_, hqa⟩ <;>
    cases op with
    | vsInit o =>
      cases o with
      | error e => simp [stepSys, vsInitialize]; try exact hinv
      | ok u => simp [stepSys, vsInitialize]
    | qaInit o =>
      rcases hq : qaInitialize s.w s.vs s.qa o with e | ⟨w1, vs1, qa1⟩
      · simp [stepSys, hq]; try exact hinv
      · have := hqa w1 vs1 qa1 o hq
        simp [stepSys, hq, this.1, this.2]
    | vsSearch ranked k t => simp [stepSys]; try exact hinv
    | vsAdd docs o => simp [stepSys]; try exact hinv
    | vsStats o => simp [stepSys]; try exact hinv
    | qaAnswer cfg req o => simp [stepSys]; try exact hinv
    | qaSimilar q k o => simp [stepSys]; try exact hinv
    | qaHealth cfg o => simp [stepSys]; try exact hinv

/-- Witness for `c10_initialized_invariant`: a successful `qaInit` step
from the fresh state sets both flags. -/
theorem c10_initialized_invariant_witness :
    ((stepSys sys0 (.qaInit (.ok ()))).qa.initialized = true →
      (stepSys sys0 (.qaInit (.ok ()))).vs.initialized = true) ∧
    (sys0.vs.initialized = true →
      (stepSys sys0 (.qaInit (.ok ()))).vs.initialized = true) ∧
    (sys0.qa.initialized = true →
      (stepSys sys0 (.qaInit (.ok ()))).qa.initialized = true) ∧
    (∀ w1 vs1 qa1 o, qaInitialize sys0.w sys0.vs sys0.qa o = .ok (w1, vs1, qa1) →
      qa1.initialized = true ∧ vs1.initialized = true) :=
  c10_initialized_invariant sys0 (.qaInit (.ok ()))
    (fun h => absurd h (by decide))

end MedicalBot
